import Mathlib

/-!
# MultiSigMaster: verification of `multisig_wallet.rs`

A shallow embedding of the multisig wallet program. Public keys are
modelled as byte lists (`Pubkey := List Nat`, each byte `< 256` where it
matters), `u64`/`u8` counters as `Nat`, and each Anchor instruction as a
pure function from its pre-state and arguments to `Except` of the
error enum of the program. A failed Solana instruction commits no account
writes, so an `Except.error` result leaves the on-chain state unchanged;
`updateCommit` / `executeCommit` make that commit discipline explicit
where a claim is about the persisted state.
-/

/-- A Solana public key: 32 bytes. Modelled as a byte list; the codec
theorems carry the `length = 32` fact explicitly. -/
abbrev Pubkey := List Nat

/-- The error enum of the program (`MultisigWalletError` in the source). -/
inductive MultisigWalletError where
  | InvalidThreshold
  | SignerNotFound
  | AlreadyApproved
  | TransactionExpired
  | InsufficientApprovals
  | TransactionAlreadyExecuted
  | NotAllSignersApproved
  | InvalidAccountMetas
  | InsufficientAccounts
  | RecursiveCallNotAllowed
deriving DecidableEq, Repr

open MultisigWalletError

/-- `MultisigAccount`: the persisted multisig configuration. -/
structure MultisigAccount where
  signers : List Pubkey
  threshold : Nat
  expiration_timestamp : Option Nat
  nonce : Nat
  bump : Nat
deriving DecidableEq, Repr

/-- `TransactionAccount`: one persisted transaction proposal. The
`signers` field is the approvals list. -/
structure TransactionAccount where
  multisig : Pubkey
  proposer : Pubkey
  tx_index : Nat
  program_id : Pubkey
  accounts : List Nat
  data : List Nat
  signers : List Pubkey
  executed : Bool
  bump : Nat
deriving DecidableEq, Repr

/-- `AccountMeta` from the Solana SDK: an address plus two flags. -/
structure AccountMeta where
  pubkey : Pubkey
  is_signer : Bool
  is_writable : Bool
deriving DecidableEq, Repr

/-- A caller-supplied runtime account (`AccountInfo`): only its key and
its signer flag are inspected by the checks of this program. -/
structure AccountInfo where
  key : Pubkey
  is_signer : Bool
deriving DecidableEq, Repr

/-- A built instruction (`Instruction` from the Solana SDK). -/
structure Instruction where
  program_id : Pubkey
  accounts : List AccountMeta
  data : List Nat
deriving DecidableEq, Repr

/-- `is_signer_in_multisig` from the source: linear membership test. -/
def is_signer_in_multisig (signers : List Pubkey) (signer : Pubkey) : Bool :=
  signers.contains signer

/-- The body of the `while` loop of `deserialize_account_metas`: consume
33-byte records (32-byte key, then a flags byte whose bit 0 is the signer
flag and bit 1 the writable flag). `none` is the `ok_or` failure path of
the slice accesses, reachable only on lengths that are not multiples
of 33. -/
def deserialize_loop (data : List Nat) : Option (List AccountMeta) :=
  if data.isEmpty then some []
  else if h : 32 < data.length then
    let pubkey : Pubkey := data.take 32
    let flags := data.get ⟨32, h⟩
    match deserialize_loop (data.drop 33) with
    | some rest =>
        some ({ pubkey := pubkey
                is_signer := flags &&& 1 != 0
                is_writable := flags &&& 2 != 0 } :: rest)
    | none => none
  else none
termination_by data.length
decreasing_by
  simp only [List.length_drop]
  cases data with
  | nil => simp [List.isEmpty] at *
  | cons a l => simp; omega

/-- `deserialize_account_metas` from the source. -/
def deserialize_account_metas (data : List Nat) :
    Except MultisigWalletError (List AccountMeta) :=
  if data.length % 33 != 0 then .error InvalidAccountMetas
  else
    match deserialize_loop data with
    | some metas => .ok metas
    | none => .error InvalidAccountMetas

/-- `initialize_multisig`: validates the threshold and returns the fresh
config. The `bump` argument stands for the runtime-derived PDA bump. -/
def initialize_multisig (initial_signers : List Pubkey) (threshold : Nat)
    (expiration_timestamp : Option Nat) (bump : Nat) :
    Except MultisigWalletError MultisigAccount :=
  if threshold = 0 ∨ initial_signers.length < threshold then
    .error InvalidThreshold
  else
    .ok { signers := initial_signers
          threshold := threshold
          expiration_timestamp := expiration_timestamp
          nonce := 0
          bump := bump }

/-- `propose_transaction`: on success returns the updated config (nonce
incremented) and the freshly initialized transaction account. -/
def propose_transaction (multisig : MultisigAccount) (multisigKey : Pubkey)
    (proposer : Pubkey) (program_id : Pubkey) (accounts : List Nat)
    (instruction_data : List Nat) (bump : Nat) :
    Except MultisigWalletError (MultisigAccount × TransactionAccount) :=
  if ¬ is_signer_in_multisig multisig.signers proposer then
    .error SignerNotFound
  else if accounts.length % 33 != 0 then
    .error InvalidAccountMetas
  else
    .ok ({ multisig with nonce := multisig.nonce + 1 },
         { multisig := multisigKey
           proposer := proposer
           tx_index := multisig.nonce
           program_id := program_id
           accounts := accounts
           data := instruction_data
           signers := [proposer]
           executed := false
           bump := bump })

/-- The expiration test of `approve_transaction`: the clock field
`unix_timestamp` is an `i64`, compared against the `u64` expiration only
when non-negative. -/
def expirationPassed (expiration_timestamp : Option Nat) (now : Int) : Bool :=
  match expiration_timestamp with
  | some expiration => decide (0 ≤ now) && decide (expiration < now.toNat)
  | none => false

/-- `approve_transaction`: on success returns the transaction with the
caller appended to the approvals. -/
def approve_transaction (multisig : MultisigAccount)
    (transaction : TransactionAccount) (signer : Pubkey) (now : Int) :
    Except MultisigWalletError TransactionAccount :=
  if expirationPassed multisig.expiration_timestamp now then
    .error TransactionExpired
  else if ¬ is_signer_in_multisig multisig.signers signer then
    .error SignerNotFound
  else if transaction.signers.contains signer then
    .error AlreadyApproved
  else
    .ok { transaction with signers := transaction.signers ++ [signer] }

/-- Outcome of `execute_transaction`: a program error, a failure of the
delegated CPI itself (`invoke_signed` erring, which also commits
nothing), or success carrying the invoked instruction and the updated
transaction account. -/
inductive ExecResult where
  | failed (e : MultisigWalletError)
  | cpiFailed
  | success (instruction : Instruction) (transaction : TransactionAccount)
deriving DecidableEq, Repr

/-- The per-index loop of `execute_transaction` building the
`invoke_accounts` vector: positional matching of decoded metas against
the caller-supplied remaining accounts, flags taken from the decoded
metas, the key from the runtime account. -/
def build_invoke_accounts :
    List AccountMeta → List AccountInfo →
    Except MultisigWalletError (List AccountMeta)
  | [], _ => .ok []
  | _ :: _, [] => .error InsufficientAccounts
  | meta :: metas, account :: rest =>
    if account.key ≠ meta.pubkey then .error InvalidAccountMetas
    else
      match build_invoke_accounts metas rest with
      | .ok built =>
          .ok ({ pubkey := account.key
                 is_signer := meta.is_signer
                 is_writable := meta.is_writable } :: built)
      | .error e => .error e

/-- `execute_transaction`. `program_id` is `ctx.program_id` (this
own identity of this program); `cpi_ok` stands for whether the external
`invoke_signed` call succeeds. -/
def execute_transaction (multisig : MultisigAccount)
    (transaction : TransactionAccount) (program_id : Pubkey)
    (remaining_accounts : List AccountInfo) (cpi_ok : Bool) : ExecResult :=
  if transaction.executed then .failed TransactionAlreadyExecuted
  else if transaction.signers.length < multisig.threshold then
    .failed InsufficientApprovals
  else
    match deserialize_account_metas transaction.accounts with
    | .error e => .failed e
    | .ok account_metas =>
      if remaining_accounts.length < account_metas.length then
        .failed InsufficientAccounts
      else
        match build_invoke_accounts account_metas remaining_accounts with
        | .error e => .failed e
        | .ok invoke_accounts =>
          if transaction.program_id = program_id then
            .failed RecursiveCallNotAllowed
          else if cpi_ok then
            .success { program_id := transaction.program_id
                       accounts := invoke_accounts
                       data := transaction.data }
              { transaction with executed := true }
          else .cpiFailed

/-- The transaction account as persisted after an `execute_transaction`
call: only a successful instruction commits writes. -/
def executeCommit (r : ExecResult) (transaction : TransactionAccount) :
    TransactionAccount :=
  match r with
  | .success _ t => t
  | _ => transaction

/-- One iteration of the unanimity loop shared by `update_multisig` and
`close_multisig`: the signer must appear among the remaining accounts
with its runtime signer flag set. -/
def signer_approved (remaining_accounts : List AccountInfo)
    (signer : Pubkey) : Bool :=
  remaining_accounts.any (fun account => account.key = signer && account.is_signer)

/-- The unanimity loop itself: every current signer must have signed. -/
def all_signers_approved (signers : List Pubkey)
    (remaining_accounts : List AccountInfo) : Bool :=
  signers.all (signer_approved remaining_accounts)

/-- `update_multisig`: unanimity check, then signers, threshold and
expiration updates in source order. An `Except.error` result commits no
writes to the config account. -/
def update_multisig (multisig : MultisigAccount)
    (new_signers : Option (List Pubkey)) (new_threshold : Option Nat)
    (new_expiration : Option Nat) (remaining_accounts : List AccountInfo) :
    Except MultisigWalletError MultisigAccount :=
  if ¬ all_signers_approved multisig.signers remaining_accounts then
    .error NotAllSignersApproved
  else
    let withSigners :=
      match new_signers with
      | some signers => { multisig with signers := signers }
      | none => multisig
    match new_threshold with
    | some threshold =>
      if threshold = 0 ∨ withSigners.signers.length < threshold then
        .error InvalidThreshold
      else
        .ok { withSigners with
                threshold := threshold
                expiration_timestamp := new_expiration }
    | none =>
      .ok { withSigners with expiration_timestamp := new_expiration }

/-- The config as persisted after an `update_multisig` call: a failed
instruction rolls back, so only an `ok` result replaces the account. -/
def updateCommit (multisig : MultisigAccount)
    (r : Except MultisigWalletError MultisigAccount) : MultisigAccount :=
  match r with
  | .ok updated => updated
  | .error _ => multisig

/-- `close_multisig`: unanimity check, then the full balance moves to the
receiver. Returns the final (multisig, receiver) lamport balances. -/
def close_multisig (multisig : MultisigAccount)
    (remaining_accounts : List AccountInfo)
    (multisig_lamports receiver_lamports : Nat) :
    Except MultisigWalletError (Nat × Nat) :=
  if ¬ all_signers_approved multisig.signers remaining_accounts then
    .error NotAllSignersApproved
  else
    .ok (0, receiver_lamports + multisig_lamports)

/-- Modelled from the spec: the client-side encoder of the `accounts`
field is not part of the on-chain source; the spec fixes the format as
fixed 33-byte records, a 32-byte address followed by one flags byte with
bit 0 the signer flag and bit 1 the writable flag. -/
def serialize_account_meta (meta : AccountMeta) : List Nat :=
  meta.pubkey ++ [(if meta.is_signer then 1 else 0) + (if meta.is_writable then 2 else 0)]

/-- Modelled from the spec: concatenation of the per-record encodings. -/
def serialize_account_metas : List AccountMeta → List Nat
  | [] => []
  | meta :: metas => serialize_account_meta meta ++ serialize_account_metas metas

instance {ε α : Type} [DecidableEq ε] [DecidableEq α] : DecidableEq (Except ε α) := fun x y =>
  match x, y with
  | .ok a, .ok b =>
    if h : a = b then .isTrue (by rw [h]) else .isFalse (by simp [h])
  | .error a, .error b =>
    if h : a = b then .isTrue (by rw [h]) else .isFalse (by simp [h])
  | .ok _, .error _ => .isFalse (by simp)
  | .error _, .ok _ => .isFalse (by simp)

/-!
Concrete fixtures used by the witness and counterexample theorems below.
-/

def pkW1 : Pubkey := List.replicate 32 1
def pkW2 : Pubkey := List.replicate 32 2
def accW1 : AccountInfo := { key := pkW1, is_signer := true }
def cfgW : MultisigAccount :=
  { signers := [pkW1], threshold := 1, expiration_timestamp := some 100, nonce := 0, bump := 7 }
def cfgWB : MultisigAccount :=
  { signers := [pkW1, pkW2], threshold := 2, expiration_timestamp := none, nonce := 3, bump := 0 }
def txW : TransactionAccount :=
  { multisig := pkW1, proposer := pkW1, tx_index := 0, program_id := pkW2, accounts := [],
    data := [], signers := [pkW1], executed := false, bump := 3 }
def cfgAfterC1 : MultisigAccount :=
  { signers := [], threshold := 1, expiration_timestamp := none, nonce := 0, bump := 7 }

def cfgInitW : MultisigAccount :=
  { signers := [pkW1], threshold := 1, expiration_timestamp := none, nonce := 0, bump := 4 }
def cfgUpW : MultisigAccount :=
  { cfgW with expiration_timestamp := some 50 }

def cfgEmpty : MultisigAccount :=
  { signers := [], threshold := 1, expiration_timestamp := none, nonce := 0, bump := 0 }

def metaWa : AccountMeta :=
  { pubkey := pkW1, is_signer := true, is_writable := false }
def metaWb : AccountMeta :=
  { pubkey := pkW2, is_signer := false, is_writable := true }

theorem deserialize_loop_nil : deserialize_loop [] = some [] := by
  unfold deserialize_loop; rfl

theorem flags_bit0 (s w : Bool) :
    (((if s then 1 else 0) + (if w then 2 else 0) : Nat) &&& 1 != 0) = s := by
  cases s <;> cases w <;> decide

theorem flags_bit1 (s w : Bool) :
    (((if s then 1 else 0) + (if w then 2 else 0) : Nat) &&& 2 != 0) = w := by
  cases s <;> cases w <;> decide

theorem deserialize_loop_record (m : AccountMeta) (rest : List Nat)
    (h : m.pubkey.length = 32) :
    deserialize_loop (serialize_account_meta m ++ rest) =
      (deserialize_loop rest).map (fun metas => m :: metas) := by
  have hsm : serialize_account_meta m ++ rest =
      m.pubkey ++ (((if m.is_signer then 1 else 0) + (if m.is_writable then 2 else 0)) :: rest) := by
    simp [serialize_account_meta]
  have hlt : 32 < (serialize_account_meta m ++ rest).length := by
    simp [serialize_account_meta, h]
  have htake : (serialize_account_meta m ++ rest).take 32 = m.pubkey := by
    rw [hsm, ← h]; exact List.take_left _ _
  have hget : ∀ hh : 32 < (serialize_account_meta m ++ rest).length,
      (serialize_account_meta m ++ rest).get ⟨32, hh⟩ =
      (if m.is_signer then 1 else 0) + (if m.is_writable then 2 else 0) := by
    intro hh
    simp [hsm, List.getElem_append_right, h]
  have hdrop : (serialize_account_meta m ++ rest).drop 33 = rest := by
    rw [hsm]
    have h33 : (33 : Nat) = m.pubkey.length + 1 := by omega
    rw [h33, List.drop_append]
    rfl
  have hne : (serialize_account_meta m ++ rest).isEmpty = false := by
    cases hc : serialize_account_meta m ++ rest with
    | nil => rw [hc] at hlt; simp at hlt
    | cons a l => simp
  conv_lhs => unfold deserialize_loop
  rw [hne]
  simp only [Bool.false_eq_true, if_false, dif_pos hlt]
  rw [htake, hget, hdrop]
  cases hdl : deserialize_loop rest with
  | none => simp [hdl]
  | some metas =>
      simp only [hdl, Option.map]
      rw [flags_bit0, flags_bit1]

theorem deserialize_loop_serialize (ms : List AccountMeta)
    (h : ∀ m ∈ ms, m.pubkey.length = 32) :
    deserialize_loop (serialize_account_metas ms) = some ms := by
  induction ms with
  | nil => exact deserialize_loop_nil
  | cons m rest ih =>
      rw [serialize_account_metas, deserialize_loop_record m _ (h m (by simp))]
      rw [ih (fun x hx => h x (by simp [hx]))]
      rfl

theorem serialize_account_metas_length (ms : List AccountMeta)
    (h : ∀ m ∈ ms, m.pubkey.length = 32) :
    (serialize_account_metas ms).length = 33 * ms.length := by
  induction ms with
  | nil => rfl
  | cons m rest ih =>
      rw [serialize_account_metas]
      simp only [List.length_append, List.length_cons]
      rw [ih (fun x hx => h x (by simp [hx]))]
      have : (serialize_account_meta m).length = 33 := by
        simp [serialize_account_meta, h m (by simp)]
      rw [this]
      ring

/-- Claim C1 counterexample: a successful `update_multisig` that replaces the
signers with the empty list while omitting `new_threshold` leaves
`threshold = 1 > 0 = len(signers)`, violating the claimed invariant. -/
theorem C1_counterexample :
    update_multisig cfgW (some []) none none [accW1] = .ok cfgAfterC1 ∧
      cfgAfterC1.signers.length < cfgAfterC1.threshold := by
  decide

/-- Claim C1 (amended): `1 ≤ threshold ≤ len(signers)` holds after every
successful `initialize_multisig`, and after every successful
`update_multisig` in which `new_signers` is absent or `new_threshold` is
present (given the invariant held before the call); an update supplying
`new_signers` without `new_threshold` can break it. -/
theorem C1_threshold_invariant :
    (∀ (s : List Pubkey) (t : Nat) (e : Option Nat) (b : Nat) (m : MultisigAccount),
        initialize_multisig s t e b = .ok m →
        1 ≤ m.threshold ∧ m.threshold ≤ m.signers.length)
    ∧ (∀ (m : MultisigAccount) (ns : Option (List Pubkey)) (nt ne : Option Nat)
        (r : List AccountInfo) (m2 : MultisigAccount),
        1 ≤ m.threshold → m.threshold ≤ m.signers.length →
        (ns = none ∨ nt.isSome) →
        update_multisig m ns nt ne r = .ok m2 →
        1 ≤ m2.threshold ∧ m2.threshold ≤ m2.signers.length) := by
  constructor
  · intro s t e b m h
    unfold initialize_multisig at h
    split at h
    · simp at h
    · next hcond =>
        injection h with h2
        subst h2
        push_neg at hcond
        simp
        omega
  · intro m ns nt ne r m2 h1 h2 hcase h
    unfold update_multisig at h
    split at h
    · simp at h
    · cases nt with
      | some t =>
          simp only at h
          split at h
          · simp at h
          · next hcond =>
              injection h with h2'
              subst h2'
              push_neg at hcond
              simp
              omega
      | none =>
          cases hcase with
          | inl hns =>
              subst hns
              simp only at h
              injection h with h2'
              subst h2'
              simp
              omega
          | inr hsome => simp at hsome

/-- Claim C1 witness: the amended invariant evaluated at concrete calls. -/
theorem C1_threshold_invariant_witness :
    (1 ≤ cfgInitW.threshold ∧ cfgInitW.threshold ≤ cfgInitW.signers.length) ∧
      (1 ≤ cfgUpW.threshold ∧ cfgUpW.threshold ≤ cfgUpW.signers.length) :=
  ⟨C1_threshold_invariant.1 [pkW1] 1 none 4 cfgInitW (by decide),
   C1_threshold_invariant.2 cfgW none none (some 50) [accW1] cfgUpW
     (by decide) (by decide) (Or.inl rfl) (by decide)⟩

/-- Claim C2 counterexample: with the target equal to the own identity of the program
itself but quorum not reached, `execute_transaction` fails with
`InsufficientApprovals`, not `RecursiveCallNotAllowed`: the recursion
check runs after the quorum check. -/
theorem C2_counterexample :
    execute_transaction cfgW { txW with signers := [] } pkW2 [] true =
        .failed InsufficientApprovals ∧
      execute_transaction cfgW { txW with signers := [] } pkW2 [] true ≠
        .failed RecursiveCallNotAllowed := by
  constructor
  · simp [execute_transaction, cfgW, txW]
  · simp [execute_transaction, cfgW, txW]

/-- Claim C2 (amended): when the proposal is unexecuted, quorum is met,
the stored account metas decode, and the caller-supplied accounts match
them positionally, a target equal to the own identity of the program fails
with `RecursiveCallNotAllowed`; when quorum is not met the call instead
fails with `InsufficientApprovals` whatever the target. -/
theorem C2_recursive_call_rejected :
    (∀ (m : MultisigAccount) (t : TransactionAccount) (pid : Pubkey)
        (racc : List AccountInfo) (cpi : Bool) (metas built : List AccountMeta),
        t.executed = false →
        m.threshold ≤ t.signers.length →
        deserialize_account_metas t.accounts = .ok metas →
        metas.length ≤ racc.length →
        build_invoke_accounts metas racc = .ok built →
        t.program_id = pid →
        execute_transaction m t pid racc cpi = .failed RecursiveCallNotAllowed)
    ∧ (∀ (m : MultisigAccount) (t : TransactionAccount) (pid : Pubkey)
        (racc : List AccountInfo) (cpi : Bool),
        t.executed = false → t.signers.length < m.threshold →
        execute_transaction m t pid racc cpi = .failed InsufficientApprovals) := by
  constructor
  · intro m t pid racc cpi metas built hex hq hdes hlen hbuild hpid
    unfold execute_transaction
    rw [hex, hdes]
    simp [Nat.not_lt.mpr hq, Nat.not_lt.mpr hlen, hbuild, hpid]
  · intro m t pid racc cpi hex hq
    unfold execute_transaction
    rw [hex]
    simp [hq]

/-- Claim C2 witness: the amended statement at concrete inputs. -/
theorem C2_recursive_call_rejected_witness :
    execute_transaction cfgW txW pkW2 [] true = .failed RecursiveCallNotAllowed ∧
      execute_transaction cfgW { txW with signers := [] } pkW1 [] true =
        .failed InsufficientApprovals :=
  ⟨C2_recursive_call_rejected.1 cfgW txW pkW2 [] true [] [] (by decide) (by decide)
     (by simp [txW, deserialize_account_metas, deserialize_loop_nil]) (by decide)
     (by decide) (by decide),
   C2_recursive_call_rejected.2 cfgW { txW with signers := [] } pkW1 [] true
     (by decide) (by decide)⟩

/-- Claim C3: `execute_transaction` succeeds at most once per proposal —
once `executed` is true every later call fails with
`TransactionAlreadyExecuted`, approval never changes the flag, and the
committed state of a call on an executed proposal still has the flag
set. -/
theorem C3_execute_at_most_once :
    (∀ (m : MultisigAccount) (t : TransactionAccount) (pid : Pubkey)
        (racc : List AccountInfo) (cpi : Bool),
        t.executed = true →
        execute_transaction m t pid racc cpi = .failed TransactionAlreadyExecuted)
    ∧ (∀ (m : MultisigAccount) (t : TransactionAccount) (s : Pubkey) (now : Int)
        (t2 : TransactionAccount),
        approve_transaction m t s now = .ok t2 → t2.executed = t.executed)
    ∧ (∀ (m : MultisigAccount) (t : TransactionAccount) (pid : Pubkey)
        (racc : List AccountInfo) (cpi : Bool),
        t.executed = true →
        (executeCommit (execute_transaction m t pid racc cpi) t).executed = true) := by
  refine ⟨fun m t pid racc cpi hex => ?_, fun m t s now t2 h => ?_, fun m t pid racc cpi hex => ?_⟩
  · unfold execute_transaction
    rw [hex]
    simp
  · unfold approve_transaction at h
    split at h
    · simp at h
    · split at h
      · simp at h
      · split at h
        · simp at h
        · injection h with h2
          subst h2
          rfl
  · have hfail : execute_transaction m t pid racc cpi = .failed TransactionAlreadyExecuted := by
      unfold execute_transaction
      rw [hex]
      simp
    rw [hfail]
    exact hex

/-- Claim C3 witness: the three conjuncts at concrete inputs. -/
theorem C3_execute_at_most_once_witness :
    execute_transaction cfgW { txW with executed := true } pkW1 [] true =
        .failed TransactionAlreadyExecuted ∧
      ({ txW with signers := txW.signers ++ [pkW2] } : TransactionAccount).executed = txW.executed ∧
      (executeCommit (execute_transaction cfgW { txW with executed := true } pkW1 [] true)
          { txW with executed := true }).executed = true :=
  ⟨C3_execute_at_most_once.1 cfgW { txW with executed := true } pkW1 [] true (by decide),
   C3_execute_at_most_once.2.1 cfgWB txW pkW2 0 { txW with signers := txW.signers ++ [pkW2] }
     (by decide),
   C3_execute_at_most_once.2.2 cfgW { txW with executed := true } pkW1 [] true (by decide)⟩

/-- Claim C4: on an unexecuted proposal short of quorum,
`execute_transaction` fails with `InsufficientApprovals` and the
committed proposal state is unchanged. -/
theorem C4_insufficient_approvals :
    ∀ (m : MultisigAccount) (t : TransactionAccount) (pid : Pubkey)
      (racc : List AccountInfo) (cpi : Bool),
      t.executed = false → t.signers.length < m.threshold →
      execute_transaction m t pid racc cpi = .failed InsufficientApprovals ∧
        executeCommit (execute_transaction m t pid racc cpi) t = t := by
  intro m t pid racc cpi hex hq
  have hfail : execute_transaction m t pid racc cpi = .failed InsufficientApprovals := by
    unfold execute_transaction
    rw [hex]
    simp [hq]
  exact ⟨hfail, by rw [hfail]; rfl⟩

/-- Claim C4 witness: the statement at a concrete under-quorum call. -/
theorem C4_insufficient_approvals_witness :
    execute_transaction cfgW { txW with signers := [] } pkW1 [] true =
        .failed InsufficientApprovals ∧
      executeCommit (execute_transaction cfgW { txW with signers := [] } pkW1 [] true)
          { txW with signers := [] } = { txW with signers := [] } :=
  C4_insufficient_approvals cfgW { txW with signers := [] } pkW1 [] true (by decide) (by decide)

/-- Claim C5: `update_multisig` is atomic on error — the committed config
after any failing call equals the pre-call config; in particular a call
carrying `new_signers` together with an invalid `new_threshold` fails
with `InvalidThreshold`. -/
theorem C5_update_atomic_on_error :
    (∀ (m : MultisigAccount) (ns : Option (List Pubkey)) (nt ne : Option Nat)
        (r : List AccountInfo) (e : MultisigWalletError),
        update_multisig m ns nt ne r = .error e →
        updateCommit m (update_multisig m ns nt ne r) = m)
    ∧ (∀ (m : MultisigAccount) (s : List Pubkey) (t : Nat) (ne : Option Nat)
        (r : List AccountInfo),
        all_signers_approved m.signers r = true →
        (t = 0 ∨ s.length < t) →
        update_multisig m (some s) (some t) ne r = .error InvalidThreshold) := by
  constructor
  · intro m ns nt ne r e h
    rw [h]
    rfl
  · intro m s t ne r happ hbad
    unfold update_multisig
    rw [happ]
    simp only [not_true_eq_false, if_false]
    rw [if_pos hbad]

/-- Claim C5 witness: a failing update at concrete inputs commits
nothing. -/
theorem C5_update_atomic_on_error_witness :
    updateCommit cfgW (update_multisig cfgW (some []) (some 5) none [accW1]) = cfgW ∧
      update_multisig cfgW (some []) (some 5) none [accW1] = .error InvalidThreshold :=
  ⟨C5_update_atomic_on_error.1 cfgW (some []) (some 5) none [accW1] InvalidThreshold (by decide),
   C5_update_atomic_on_error.2 cfgW [] 5 none [accW1] (by decide) (by decide)⟩

/-- Claim C6: evaluation at the failing input — a successful
`update_multisig` with `new_expiration` absent overwrites an existing
expiration with `none`, because the source assigns
`multisig.expiration_timestamp = new_expiration` unconditionally,
contradicting its own comment that expiration is updated only if
provided. -/
theorem C6_expiration_cleared_when_absent :
    cfgW.expiration_timestamp = some 100 ∧
      update_multisig cfgW none none none [accW1] =
        .ok { cfgW with expiration_timestamp := none } := by
  decide

/-- Claim C7: `approve_transaction` checks expiration, membership and
double approval in order, each short-circuiting with its own error, and
on success appends exactly the caller to the approvals. -/
theorem C7_approve_check_order :
    (∀ (m : MultisigAccount) (t : TransactionAccount) (s : Pubkey) (now : Int) (e : Nat),
        m.expiration_timestamp = some e → (e : Int) < now →
        approve_transaction m t s now = .error TransactionExpired)
    ∧ (∀ (m : MultisigAccount) (t : TransactionAccount) (s : Pubkey) (now : Int),
        expirationPassed m.expiration_timestamp now = false →
        is_signer_in_multisig m.signers s = false →
        approve_transaction m t s now = .error SignerNotFound)
    ∧ (∀ (m : MultisigAccount) (t : TransactionAccount) (s : Pubkey) (now : Int),
        expirationPassed m.expiration_timestamp now = false →
        is_signer_in_multisig m.signers s = true →
        t.signers.contains s = true →
        approve_transaction m t s now = .error AlreadyApproved)
    ∧ (∀ (m : MultisigAccount) (t : TransactionAccount) (s : Pubkey) (now : Int),
        expirationPassed m.expiration_timestamp now = false →
        is_signer_in_multisig m.signers s = true →
        t.signers.contains s = false →
        approve_transaction m t s now = .ok { t with signers := t.signers ++ [s] }) := by
  refine ⟨fun m t s now e he hlt => ?_, fun m t s now hexp hmem => ?_,
    fun m t s now hexp hmem hdup => ?_, fun m t s now hexp hmem hdup => ?_⟩
  · have hpass : expirationPassed m.expiration_timestamp now = true := by
      rw [expirationPassed.eq_def, he]
      have h0 : 0 ≤ now := le_trans (by positivity) (le_of_lt hlt)
      have h2 : e < now.toNat := by omega
      simp [h0, h2]
    unfold approve_transaction
    rw [hpass]
    simp
  · unfold approve_transaction
    rw [hexp, hmem]
    simp
  · unfold approve_transaction
    rw [hexp, hmem, hdup]
    simp
  · unfold approve_transaction
    rw [hexp, hmem, hdup]
    simp

/-- Claim C7 witness: the four branches at concrete inputs. -/
theorem C7_approve_check_order_witness :
    approve_transaction cfgW txW pkW1 101 = .error TransactionExpired ∧
      approve_transaction cfgWB txW (List.replicate 32 3) 0 = .error SignerNotFound ∧
      approve_transaction cfgWB txW pkW1 0 = .error AlreadyApproved ∧
      approve_transaction cfgWB txW pkW2 0 = .ok { txW with signers := txW.signers ++ [pkW2] } :=
  ⟨C7_approve_check_order.1 cfgW txW pkW1 101 100 (by decide) (by decide),
   C7_approve_check_order.2.1 cfgWB txW (List.replicate 32 3) 0 (by decide) (by decide),
   C7_approve_check_order.2.2.1 cfgWB txW pkW1 0 (by decide) (by decide) (by decide),
   C7_approve_check_order.2.2.2 cfgWB txW pkW2 0 (by decide) (by decide) (by decide)⟩

/-- Claim C8: `propose_transaction` rejects non-member proposers with
`SignerNotFound`, rejects account bytes whose length is not a multiple
of 33 with `InvalidAccountMetas`, and otherwise initializes the proposal
with the pre-call counter as its index, the proposer as sole approval,
`executed = false`, and the counter incremented by one. -/
theorem C8_propose :
    (∀ (m : MultisigAccount) (mk p pid : Pubkey) (acc dat : List Nat) (b : Nat),
        is_signer_in_multisig m.signers p = false →
        propose_transaction m mk p pid acc dat b = .error SignerNotFound)
    ∧ (∀ (m : MultisigAccount) (mk p pid : Pubkey) (acc dat : List Nat) (b : Nat),
        is_signer_in_multisig m.signers p = true →
        acc.length % 33 ≠ 0 →
        propose_transaction m mk p pid acc dat b = .error InvalidAccountMetas)
    ∧ (∀ (m : MultisigAccount) (mk p pid : Pubkey) (acc dat : List Nat) (b : Nat),
        is_signer_in_multisig m.signers p = true →
        acc.length % 33 = 0 →
        propose_transaction m mk p pid acc dat b =
          .ok ({ m with nonce := m.nonce + 1 },
               { multisig := mk, proposer := p, tx_index := m.nonce, program_id := pid,
                 accounts := acc, data := dat, signers := [p], executed := false,
                 bump := b })) := by
  refine ⟨fun m mk p pid acc dat b hmem => ?_, fun m mk p pid acc dat b hmem hlen => ?_,
    fun m mk p pid acc dat b hmem hlen => ?_⟩
  · unfold propose_transaction
    rw [hmem]
    simp
  · unfold propose_transaction
    rw [hmem]
    simp [hlen]
  · unfold propose_transaction
    rw [hmem]
    simp [hlen]

/-- Claim C8 witness: the three branches at concrete inputs. -/
theorem C8_propose_witness :
    propose_transaction cfgW pkW1 pkW2 pkW2 [] [] 2 = .error SignerNotFound ∧
      propose_transaction cfgW pkW1 pkW1 pkW2 [0] [] 2 = .error InvalidAccountMetas ∧
      propose_transaction cfgW pkW1 pkW1 pkW2 [] [7] 2 =
        .ok ({ cfgW with nonce := cfgW.nonce + 1 },
             { multisig := pkW1, proposer := pkW1, tx_index := cfgW.nonce, program_id := pkW2,
               accounts := [], data := [7], signers := [pkW1], executed := false, bump := 2 }) :=
  ⟨C8_propose.1 cfgW pkW1 pkW2 pkW2 [] [] 2 (by decide),
   C8_propose.2.1 cfgW pkW1 pkW1 pkW2 [0] [] 2 (by decide) (by decide),
   C8_propose.2.2 cfgW pkW1 pkW1 pkW2 [] [7] 2 (by decide) (by decide)⟩

/-- Claim C10: with an empty signer set the unanimity loop is vacuous, so
`update_multisig` and `close_multisig` never fail with
`NotAllSignersApproved` — in particular both succeed with an empty
caller-supplied account list. -/
theorem C10_empty_signers_vacuous :
    ∀ m : MultisigAccount, m.signers = [] →
      (∀ (ns : Option (List Pubkey)) (nt ne : Option Nat) (r : List AccountInfo),
        update_multisig m ns nt ne r ≠ .error NotAllSignersApproved)
      ∧ (∀ (r : List AccountInfo) (ml rl : Nat),
          (close_multisig m r ml rl).isOk = true)
      ∧ (update_multisig m none none none []).isOk = true := by
  intro m hempty
  have happ : ∀ r : List AccountInfo, all_signers_approved m.signers r = true := by
    intro r
    rw [hempty]
    rfl
  refine ⟨fun ns nt ne r => ?_, fun r ml rl => ?_, ?_⟩
  · unfold update_multisig
    rw [happ r]
    simp only [not_true_eq_false, if_false]
    cases nt with
    | some t =>
        simp only
        split
        · simp
        · simp
    | none => simp
  · unfold close_multisig
    rw [happ r]
    rfl
  · unfold update_multisig
    rw [happ []]
    rfl

/-- Claim C10 witness: the vacuous unanimity at a concrete empty-signer
config. -/
theorem C10_empty_signers_vacuous_witness :
    update_multisig cfgEmpty none none none [] ≠ .error NotAllSignersApproved ∧
      (close_multisig cfgEmpty [] 11 5).isOk = true ∧
      (update_multisig cfgEmpty none none none []).isOk = true :=
  ⟨(C10_empty_signers_vacuous cfgEmpty rfl).1 none none none [],
   (C10_empty_signers_vacuous cfgEmpty rfl).2.1 [] 11 5,
   (C10_empty_signers_vacuous cfgEmpty rfl).2.2⟩

/-- Claim C9: the 33-byte account-meta codec round-trips — decoding an
encoded sequence of records (32-byte address, then one flags byte with
bit 0 the signer flag and bit 1 the writable flag) reproduces the
sequence, and any byte sequence whose length is not a multiple of 33
fails to decode with `InvalidAccountMetas`. -/
theorem C9_codec_round_trip :
    (∀ ms : List AccountMeta, (∀ m ∈ ms, m.pubkey.length = 32) →
        deserialize_account_metas (serialize_account_metas ms) = .ok ms)
    ∧ (∀ data : List Nat, data.length % 33 ≠ 0 →
        deserialize_account_metas data = .error InvalidAccountMetas) := by
  constructor
  · intro ms h
    have hlen : (serialize_account_metas ms).length % 33 = 0 := by
      rw [serialize_account_metas_length ms h]
      exact Nat.mul_mod_right 33 ms.length
    simp [deserialize_account_metas, hlen, deserialize_loop_serialize ms h]
  · intro data hd
    simp [deserialize_account_metas, hd]

/-- Claim C9 witness: the round trip on a concrete two-record sequence
and the failure on a concrete three-byte input. -/
theorem C9_codec_round_trip_witness :
    deserialize_account_metas (serialize_account_metas [metaWa, metaWb]) =
        .ok [metaWa, metaWb] ∧
      deserialize_account_metas [1, 2, 3] = .error InvalidAccountMetas :=
  ⟨C9_codec_round_trip.1 [metaWa, metaWb] (by decide),
   C9_codec_round_trip.2 [1, 2, 3] (by decide)⟩
